import Mathlib

/-!
Verification development for the manim-generator repository.

Shallow embedding of the core algorithmic parts of the repository:
  * `src/manim_generator/utils/parsing.py`   — scene-class discovery
  * `src/manim_generator/utils/rendering.py` — per-scene execution runner,
    success-rate evaluator, frame extraction
  * `src/manim_generator/utils/llm.py`       — completion retry loops
  * `src/manim_generator/workflow.py` / `src/manim_generator/main.py`
    — working-candidate update law of the refinement loop

Modelling conventions:
  * A candidate Python source text is represented by the outcome of
    `ast.parse` plus the class declarations found by `ast.walk`: either a
    syntax-error message or the ordered list of `ClassDef`s.  Non-class
    statements are irrelevant to every function modelled here.
  * Filesystem and subprocess effects are an explicit environment record
    (`RenderEnv`): the subprocess result for each scene invocation, the
    existence of the expected media directory, per-scene video existence,
    and the frame-extraction/encoding outcome for a scene video.
  * Python floats are modelled as exact rationals (`ℚ`); `np.linspace`
    with `dtype=int` is modelled in exact arithmetic with floor division.
  * Rate-limit retries: the sequence of upstream call outcomes is an
    explicit environment `Nat → CallOutcome`; `time.sleep` durations are
    collected into a list, and a raised exception is a `fatal`/`raised`
    constructor of the result type.
-/

namespace ManimGen

/-! ## Scene-class discovery (`utils/parsing.py`, `extract_scene_class_names`) -/

/-- A base reference of a Python class declaration, as inspected by
`extract_scene_class_names`: an `ast.Name` node (plain identifier), an
`ast.Attribute` node (dotted reference; only the terminal identifier
`attr` is inspected), or any other expression node (for which
`getattr(base, "attr", "")` yields the empty string). -/
inductive BaseRef where
  | name (id : String)
  | attribute (attr : String)
  | other
deriving DecidableEq, Repr

/-- `base.id if isinstance(base, ast.Name) else getattr(base, "attr", "")`
(parsing.py line 47). -/
def BaseRef.refId : BaseRef → String
  | .name s => s
  | .attribute a => a
  | .other => ""

/-- A Python class declaration: its name and its base references,
in source order. -/
structure ClassDef where
  name : String
  bases : List BaseRef
deriving DecidableEq, Repr

/-- A candidate source text, represented by its parse outcome: a
syntax-error message (the `str` of the `SyntaxError`), or the class
declarations encountered by `ast.walk` in order. -/
def PySource : Type := Except String (List ClassDef)

/-- Python `s.endswith(suffix)`: `suffix` is a suffix of the character
sequence of `s`. -/
def pyEndsWith (s suffix : String) : Bool :=
  suffix.data.isSuffixOf s.data

/-- The inner `for base in node.bases: ... break` test of
`extract_scene_class_names` (parsing.py lines 45-50): some base
reference's terminal identifier ends with the literal suffix "Scene". -/
def matchesSceneBase (c : ClassDef) : Bool :=
  c.bases.any (fun b => pyEndsWith b.refId "Scene")

/-- The `ast.walk` loop of `extract_scene_class_names` (parsing.py lines
43-50): append the class name on the first matching base. -/
def extractLoop : List ClassDef → List String
  | [] => []
  | c :: rest => if matchesSceneBase c then c.name :: extractLoop rest else extractLoop rest

/-- `extract_scene_class_names` (parsing.py lines 25-53).  A `SyntaxError`
from `ast.parse` is returned as a `SceneParsingError` value carrying the
message `"Syntax error in code: " ++ e`.  (The second `try/except` of the
source, around the attribute walk, cannot fire: every attribute access in
the loop is guarded by `isinstance`/`getattr` defaults.) -/
def extract_scene_class_names (src : PySource) : Except String (List String) :=
  match src with
  | .error e => .error ("Syntax error in code: " ++ e)
  | .ok defs => .ok (extractLoop defs)

/-! ## Execution runner (`utils/rendering.py`, `run_manim_multiscene`) -/

/-- The observable result of one `manim` subprocess invocation
(`_run_scene`, rendering.py lines 85-102): captured stdout/stderr, the
exit code, and whether the `scene_timeout` deadline expired. -/
structure SceneRun where
  stdout : String
  stderr : String
  returncode : Int
  timedOut : Bool
deriving DecidableEq, Repr

/-- The filesystem/subprocess environment one call of
`run_manim_multiscene` observes:
  * `run scene` — the subprocess result of rendering `scene`;
  * `mediaDirExists` — `os.path.exists(video_base_path)` post-run;
  * `sceneVideoExists scene` — `os.path.exists(<video_base_path>/<scene>.mp4)`;
  * `extractResult scene` — the outcome of `extract_frames_from_video`
    on that scene's video followed by per-frame `cv2.imencode`/base64
    encoding: `none` models a `None` return or a raised exception, and
    each frame independently encodes to a data URL (`some url`) or fails
    (`none`). -/
structure RenderEnv where
  run : String → SceneRun
  mediaDirExists : Bool
  sceneVideoExists : String → Bool
  extractResult : String → Option (List (Option String))

/-- The tuple returned by `run_manim_multiscene` (success flag, data-URL
list, combined log string, successful scene names), extended with the
number of subprocesses spawned (observable, though not returned, in the
source: one `subprocess.Popen` per discovered scene). -/
structure RunResult where
  success : Bool
  frames : List String
  logs : String
  successfulScenes : List String
  spawned : Nat
deriving DecidableEq, Repr

/-- The synthesized log for a parse failure (rendering.py line 65);
`msg` is `str(scene_names)`, the `SceneParsingError` message. -/
def parseFailLog (msg : String) : String :=
  "Code parsing failed: " ++ msg ++
    "\n\nGenerated code has syntax errors and cannot be executed."

/-- The log segment appended for one scene (rendering.py lines 104-120),
including the timeout annotation.  Python renders `scene_timeout` with an
f-string; `none` prints as "None". -/
def sceneLogEntry (scene : String) (r : SceneRun) (sceneTimeout : Option Nat) : String :=
  "<" ++ scene ++ ">\n\t<STDOUT>\n\t\t" ++ r.stdout ++ "\n\t</STDOUT>\n\t<STDERR>\n\t\t" ++
    r.stderr ++ "\n\t</STDERR>\n</" ++ scene ++ ">\n\n" ++
    (if r.timedOut then
      "<!> Scene " ++ scene ++ " timed out after " ++
        (match sceneTimeout with | some t => toString t | none => "None") ++ " seconds\n\n"
    else "")

/-- Accumulator state of the per-scene rendering loop
(rendering.py lines 70-136). -/
structure LoopState where
  success : Bool
  logs : String
  successfulScenes : List String
  spawned : Nat

/-- One iteration of the `for scene in scene_names` loop (rendering.py
lines 75-136): spawn the subprocess, append the log segment, and update
the success flag (`timed_out` or a nonzero exit code forces it false;
otherwise the scene is appended to `successful_scenes`). -/
def renderSceneStep (env : RenderEnv) (sceneTimeout : Option Nat)
    (st : LoopState) (scene : String) : LoopState :=
  let r := env.run scene
  let ok := !r.timedOut && r.returncode == 0
  { success := st.success && ok,
    logs := st.logs ++ sceneLogEntry scene r sceneTimeout,
    successfulScenes := if ok then st.successfulScenes ++ [scene] else st.successfulScenes,
    spawned := st.spawned + 1 }

/-- The frame collection loop (rendering.py lines 149-185): for each
successful scene whose video file exists, a truthy extraction result
contributes its successfully encoded data URLs, in order.  (Scene-name
tags are dropped by the final `[data_url for _, data_url in frames]`;
artifact persistence and media cleanup are I/O with no effect on the
returned tuple and are not modelled.) -/
def collectFrames (env : RenderEnv) (scenes : List String) : List String :=
  scenes.foldl
    (fun fs scene =>
      if env.sceneVideoExists scene then
        match env.extractResult scene with
        | some extracted => if extracted.isEmpty then fs else fs ++ extracted.filterMap id
        | none => fs
      else fs)
    []

/-- `run_manim_multiscene` (rendering.py lines 24-234).  A parse failure
short-circuits with the synthesized log (lines 63-68); otherwise each
discovered scene is rendered in its own subprocess, logs are aggregated in
source order, and frames are collected only when the expected media
directory exists.  Note that the final `else` branch (lines 230-232) only
prints a message: the success flag is never modified by the
media-directory check. -/
def run_manim_multiscene (src : PySource) (env : RenderEnv)
    (sceneTimeout : Option Nat) : RunResult :=
  match extract_scene_class_names src with
  | .error e =>
      { success := false, frames := [], logs := parseFailLog e,
        successfulScenes := [], spawned := 0 }
  | .ok scene_names =>
      let final := scene_names.foldl (renderSceneStep env sceneTimeout)
        { success := true, logs := "", successfulScenes := [], spawned := 0 }
      let frames := if env.mediaDirExists then collectFrames env final.successfulScenes else []
      { success := final.success, frames := frames, logs := final.logs,
        successfulScenes := final.successfulScenes, spawned := final.spawned }

/-- The initial working-candidate assignment of `main`
(main.py line 37): `working_code = current_code if success else None`. -/
def initialWorking (code : String) (success : Bool) : Option String :=
  if success then some code else none

/-! ## Success evaluator (`utils/rendering.py`, `calculate_scene_success_rate`) -/

/-- `calculate_scene_success_rate` (rendering.py lines 237-261): returns
`(success_rate, scenes_rendered, total_scenes)`, with Python floats
modelled as exact rationals.  A parse failure or an empty scene list
yields `(0, 0, 0)`. -/
def calculate_scene_success_rate (successful_scenes : List String)
    (scene_names : Except String (List String)) : ℚ × Nat × Nat :=
  match scene_names with
  | .error _ => (0, 0, 0)
  | .ok names =>
      if names.length = 0 then (0, 0, 0)
      else (((successful_scenes.length : ℚ) / (names.length : ℚ)) * 100,
        successful_scenes.length, names.length)

/-! ## Frame extraction (`utils/rendering.py`, `extract_frames_from_video`) -/

/-- A decoded video frame, represented by the grayscale pixel values the
source computes with `cv2.cvtColor(frame, cv2.COLOR_BGR2GRAY)` (the
BGR-to-gray conversion is folded into the representation, since only the
grayscale values are ever inspected). -/
structure Frame where
  gray : List Nat
deriving DecidableEq, Repr

/-- The non-black pixel density of a frame (rendering.py lines 306-310):
the fraction of grayscale pixels strictly above the threshold 30. -/
def frameDensity (f : Frame) : ℚ :=
  ((f.gray.countP (fun p => 30 < p) : ℚ)) / ((f.gray.length : ℚ))

/-- A video as observed through `cv2.VideoCapture`: whether it opened,
its reported total frame count, and the decode outcome at each frame
position (`cap.set(CAP_PROP_POS_FRAMES, i)` followed by `cap.read()`;
`none` models `ret == False`). -/
structure Video where
  opened : Bool
  totalFrames : Nat
  read : Nat → Option Frame

/-- `np.linspace(0, total - 1, n, dtype=int)` in exact arithmetic: `n`
evenly spaced points from `0` to `total - 1`, truncated to integers
(floor, since all values are nonnegative). -/
def linspaceIdx (total n : Nat) : List Nat :=
  if n = 0 then []
  else if n = 1 then [0]
  else (List.range n).map (fun i => i * (total - 1) / (n - 1))

/-- One iteration of the best-density scan (rendering.py lines 297-315):
skip a failed decode, otherwise keep the frame when its density strictly
exceeds the best seen so far. -/
def bestStep (read : Nat → Option Frame) (acc : Option Frame × ℚ) (i : Nat) :
    Option Frame × ℚ :=
  match read i with
  | none => acc
  | some f => if acc.2 < frameDensity f then (some f, frameDensity f) else acc

/-- `extract_frames_from_video` (rendering.py lines 264-348): dispatch on
the mode string after the open/empty checks.  `highest_density` scans up
to `max_frames` evenly spaced positions for the frame with the strictly
greatest density (initial best density 0); `fixed_count` decodes
`min(frame_count, total)` evenly spaced positions and keeps the frames
that decode; any other mode, a failed open, or an empty video yields
`none`, as does an empty extraction. -/
def extract_frames_from_video (v : Video) (mode : String)
    (frame_count : Nat) (max_frames : Nat) : Option (List Frame) :=
  if !v.opened then none
  else if v.totalFrames = 0 then none
  else
    match mode with
    | "highest_density" =>
        let idxs := linspaceIdx v.totalFrames (min max_frames v.totalFrames)
        let best := idxs.foldl (bestStep v.read) (none, 0)
        match best.1 with
        | some f => some [f]
        | none => none
    | "fixed_count" =>
        let idxs := linspaceIdx v.totalFrames (min frame_count v.totalFrames)
        let extracted := idxs.filterMap v.read
        if extracted.isEmpty then none else some extracted
    | _ => none

/-! ## Generator client retry loops (`utils/llm.py`) -/

/-- The normalized usage record attached to a completion (the keys of the
`empty_usage` dict of llm.py lines 311-318; the richer successful-path
payload of `_build_usage_info` is supplied by the environment). -/
structure UsageRec where
  model : String
  prompt_tokens : Nat
  completion_tokens : Nat
  total_tokens : Nat
  cost : ℚ
  llm_time : ℚ
deriving DecidableEq, Repr

/-- `empty_usage` (llm.py lines 311-318): the zeroed usage record. -/
def zeroedUsage (model : String) : UsageRec :=
  { model := model, prompt_tokens := 0, completion_tokens := 0,
    total_tokens := 0, cost := 0, llm_time := 0 }

/-- The sentinel content returned on a non-throttling failure
(llm.py line 320). -/
def sentinelContent : String := "Review model failed to generate response."

/-- The outcome of one upstream `litellm.completion` call, as observed by
the retry loop: a successful response (content plus normalized usage), a
`RateLimitError`, or any other exception. -/
inductive CallOutcome where
  | ok (content : String) (usage : UsageRec)
  | rateLimited
  | otherError (msg : String)
deriving DecidableEq, Repr

/-- What `get_completion_with_retry` does for its caller: return a
`CompletionResult` (content and usage), or raise an exception. -/
inductive CompletionOutcome where
  | result (content : String) (usage : UsageRec)
  | fatal (msg : String)
deriving DecidableEq, Repr

/-- The observable behaviour of one `get_completion_with_retry` call:
its outcome, the `time.sleep` durations performed (in order), and the
number of upstream calls attempted. -/
structure RetryTrace where
  outcome : CompletionOutcome
  sleeps : List Nat
  calls : Nat
deriving DecidableEq, Repr

/-- The `while retries < max_retries` loop of `get_completion_with_retry`
(llm.py lines 255-325), with `fuel = max_retries - retries` and `attempt`
the number of calls already made.  On `RateLimitError` number `k+1`
(0-based attempt `k`), sleep `min(2 * (k+1), 30)` and loop; on any other
exception return the sentinel content with zeroed usage; when the loop
exhausts, raise "Max retries exceeded.". -/
def retryAux (env : Nat → CallOutcome) (model : String) :
    Nat → Nat → List Nat → Nat → RetryTrace
  | _, 0, sleeps, calls => ⟨.fatal "Max retries exceeded.", sleeps, calls⟩
  | attempt, fuel + 1, sleeps, calls =>
      match env attempt with
      | .ok c u => ⟨.result c u, sleeps, calls + 1⟩
      | .otherError _ => ⟨.result sentinelContent (zeroedUsage model), sleeps, calls + 1⟩
      | .rateLimited =>
          retryAux env model (attempt + 1) fuel
            (sleeps ++ [min (2 * (attempt + 1)) 30]) (calls + 1)

/-- `get_completion_with_retry` (llm.py lines 228-325), `max_retries`
defaulting to 5 at every call site. -/
def get_completion_with_retry (env : Nat → CallOutcome) (model : String)
    (max_retries : Nat) : RetryTrace :=
  retryAux env model 0 max_retries [] 0

/-- A structured streaming chunk (the `StreamChunk` dataclass of llm.py
lines 58-75). -/
structure StreamChunkM where
  token : String
  response : String
  usage : UsageRec
  reasoningToken : String
  reasoningContent : String
deriving DecidableEq, Repr

/-- The outcome of one streaming attempt of
`get_streaming_completion_with_retry`: the stream completes (emitting the
chunk sequence, whose accumulation is driven by the upstream iterator and
abstracted into the environment), a `RateLimitError` is raised (at call
time or mid-stream — both are caught by the `except RateLimitError`
clause), or any other exception is raised (at call time, or re-raised
from the chunk loop at llm.py line 421). -/
inductive StreamAttempt where
  | ok (chunks : List StreamChunkM)
  | rateLimited
  | otherError (msg : String)

/-- What a call of `get_streaming_completion_with_retry` does for its
caller: complete the generator having yielded `chunks`, or raise. -/
inductive StreamResult where
  | streamed (chunks : List StreamChunkM)
  | raised (msg : String)

/-- The retry loop of `get_streaming_completion_with_retry` (llm.py lines
357-439).  Unlike the non-streaming variant there is no generic `except`
clause: a non-`RateLimitError` exception propagates to the caller. -/
def streamRetryAux (env : Nat → StreamAttempt) :
    Nat → Nat → List Nat → StreamResult × List Nat
  | _, 0, sleeps => (.raised "Max retries exceeded.", sleeps)
  | attempt, fuel + 1, sleeps =>
      match env attempt with
      | .ok chunks => (.streamed chunks, sleeps)
      | .otherError m => (.raised m, sleeps)
      | .rateLimited =>
          streamRetryAux env (attempt + 1) fuel (sleeps ++ [min (2 * (attempt + 1)) 30])

/-- `get_streaming_completion_with_retry` (llm.py lines 328-439). -/
def get_streaming_completion_with_retry (env : Nat → StreamAttempt)
    (max_retries : Nat) : StreamResult × List Nat :=
  streamRetryAux env 0 max_retries []

/-! ## Refinement loop (`workflow.py`, `ManimWorkflow.review_and_update_code`) -/

/-- The outcome of one review cycle's revision-and-execution, as far as
the working-candidate bookkeeping is concerned: the revised code produced
by `_generate_code_revision` and the success flag of the subsequent
`execute_code` report. -/
structure CycleOutcome where
  revisedCode : String
  execSuccess : Bool
deriving DecidableEq, Repr

/-- The loop-carried candidate state of `review_and_update_code`. -/
structure ReviewState where
  currentCode : String
  workingCode : Option String
deriving DecidableEq, Repr

/-- One iteration of the `for cycle in range(...)` loop (workflow.py
lines 244-282): `current_code` is replaced by the revision, and
`working_code = current_code` exactly when the execution succeeded
(lines 279-280). -/
def reviewCycleStep (st : ReviewState) (o : CycleOutcome) : ReviewState :=
  { currentCode := o.revisedCode,
    workingCode := if o.execSuccess then some o.revisedCode else st.workingCode }

/-- The cycle loop of `review_and_update_code` (workflow.py lines
241-284), folding over the per-cycle outcomes; `working_code` starts at
`None` (line 241). -/
def review_and_update_code (initialCode : String) (outcomes : List CycleOutcome) :
    ReviewState :=
  outcomes.foldl reviewCycleStep { currentCode := initialCode, workingCode := none }

/-! ## Concrete inputs used for witnesses and counterexamples -/

/-- A one-frame video whose single frame decodes to an all-black frame
(every grayscale value at the threshold floor). -/
def vBlack : Video where
  opened := true
  totalFrames := 1
  read := fun _ => some ⟨[0]⟩

/-- A one-frame video whose single frame fails to decode. -/
def vNoDecode : Video where
  opened := true
  totalFrames := 1
  read := fun _ => none

/-- A two-frame video: a black frame at position 0 and a bright frame at
position 1, both decoding successfully. -/
def vTwo : Video where
  opened := true
  totalFrames := 2
  read := fun i => if i = 0 then some ⟨[0]⟩ else some ⟨[100]⟩

/-- An environment in which every subprocess exits cleanly (code 0, no
timeout) but the expected media directory does not exist post-run. -/
def mediaMissingEnv : RenderEnv where
  run := fun _ => ⟨"", "", 0, false⟩
  mediaDirExists := false
  sceneVideoExists := fun _ => false
  extractResult := fun _ => none

/-! ## Helper lemmas -/

/-- Membership in the discovery loop's output: exactly the names of the
declarations with a matching base. -/
theorem mem_extractLoop {defs : List ClassDef} {s : String} :
    s ∈ extractLoop defs ↔ ∃ c ∈ defs, c.name = s ∧ matchesSceneBase c = true := by
  induction defs with
  | nil => simp [extractLoop]
  | cons c rest ih =>
    cases hm : matchesSceneBase c
    · simp only [extractLoop, hm, Bool.false_eq_true, if_false, ih, List.mem_cons]
      constructor
      · rintro ⟨x, hx, hxs, hxm⟩; exact ⟨x, Or.inr hx, hxs, hxm⟩
      · rintro ⟨x, hx | hx, hxs, hxm⟩
        · subst hx; simp [hm] at hxm
        · exact ⟨x, hx, hxs, hxm⟩
    · simp only [extractLoop, hm, if_true, List.mem_cons, ih]
      constructor
      · rintro (rfl | ⟨x, hx, hxs, hxm⟩)
        · exact ⟨c, Or.inl rfl, rfl, hm⟩
        · exact ⟨x, Or.inr hx, hxs, hxm⟩
      · rintro ⟨x, hx | hx, hxs, hxm⟩
        · subst hx; exact Or.inl hxs.symm
        · exact Or.inr ⟨x, hx, hxs, hxm⟩

/-- A frame's non-black density is nonnegative. -/
theorem frameDensity_nonneg (f : Frame) : 0 ≤ frameDensity f := by
  unfold frameDensity
  positivity

/-- `filterMap` keeps every element when the function is total on the
list. -/
theorem filterMap_length_of_isSome {α β : Type} (g : α → Option β) :
    ∀ (l : List α), (∀ i ∈ l, (g i).isSome) → (l.filterMap g).length = l.length := by
  intro l
  induction l with
  | nil => intro _; rfl
  | cons a rest ih =>
    intro h
    have ha := h a (List.mem_cons_self a rest)
    rcases hg : g a with _ | b
    · rw [hg] at ha; simp at ha
    · simp only [List.filterMap_cons, hg, List.length_cons]
      rw [ih (fun i hi => h i (List.mem_cons_of_mem a hi))]

/-- The number of points produced by `linspaceIdx`. -/
theorem linspaceIdx_length (total n : Nat) (hn : 1 ≤ n) :
    (linspaceIdx total n).length = n := by
  match n with
  | 1 => rfl
  | m + 2 => simp [linspaceIdx]

/-- The integer-truncated evenly spaced positions are strictly increasing
whenever no more points are requested than the media length. -/
theorem linspaceIdx_pairwise (total n : Nat) (hn : n ≤ total) :
    (linspaceIdx total n).Pairwise (· < ·) := by
  match n with
  | 0 => simp [linspaceIdx]
  | 1 => simp [linspaceIdx]
  | m + 2 =>
    rw [linspaceIdx]
    simp only [Nat.add_eq_zero, and_false, if_false, Nat.add_left_eq_self]
    rw [if_neg (by omega)]
    have hs : m + 1 ≤ total - 1 := by omega
    have hmono : StrictMono (fun i => i * (total - 1) / (m + 2 - 1)) := by
      apply strictMono_nat_of_lt_succ
      intro i
      have h1 : i * (total - 1) / (m + 1) + 1 = (i * (total - 1) + (m + 1)) / (m + 1) := by
        rw [Nat.add_div_right _ (by omega)]
      have h2 : i * (total - 1) + (m + 1) ≤ (i + 1) * (total - 1) := by
        rw [Nat.succ_mul]
        omega
      have h3 : (i * (total - 1) + (m + 1)) / (m + 1) ≤ (i + 1) * (total - 1) / (m + 1) :=
        Nat.div_le_div_right h2
      show i * (total - 1) / (m + 1) < (i + 1) * (total - 1) / (m + 1)
      omega
    refine List.Pairwise.map _ ?_ (List.pairwise_lt_range (m + 2))
    intro a b hab
    exact hmono hab

/-- The characterization of the best-density scan fold: either no decoded
sample strictly beats the running best (the accumulator is returned
unchanged), or the fold returns the first decoded sample attaining the
maximum density, with every earlier decoded sample strictly below it and
every later one at most it. -/
theorem bestFold_spec (read : Nat → Option Frame) :
    ∀ (idxs : List Nat) (b : Option Frame) (d : ℚ),
      (idxs.foldl (bestStep read) (b, d) = (b, d) ∧
        ∀ i ∈ idxs, ∀ g, read i = some g → frameDensity g ≤ d) ∨
      (∃ l1 i l2 f, idxs = l1 ++ i :: l2 ∧ read i = some f ∧
        idxs.foldl (bestStep read) (b, d) = (some f, frameDensity f) ∧
        d < frameDensity f ∧
        (∀ j ∈ l1, ∀ g, read j = some g →
          frameDensity g ≤ d ∨ frameDensity g < frameDensity f) ∧
        (∀ j ∈ l2, ∀ g, read j = some g → frameDensity g ≤ frameDensity f)) := by
  intro idxs
  induction idxs with
  | nil =>
    intro b d
    left
    exact ⟨rfl, by simp⟩
  | cons i rest ih =>
    intro b d
    rcases hread : read i with _ | f
    · have hstep : bestStep read (b, d) i = (b, d) := by simp [bestStep, hread]
      rw [List.foldl_cons, hstep]
      rcases ih b d with ⟨heq, hall⟩ | ⟨l1, j, l2, g, hsplit, hr, heq, hlt, h1, h2⟩
      · left
        refine ⟨heq, ?_⟩
        intro k hk g2 hg2
        rcases List.mem_cons.mp hk with rfl | hk2
        · rw [hread] at hg2; cases hg2
        · exact hall k hk2 g2 hg2
      · right
        refine ⟨i :: l1, j, l2, g, by rw [hsplit]; rfl, hr, heq, hlt, ?_, h2⟩
        intro k hk g2 hg2
        rcases List.mem_cons.mp hk with rfl | hk2
        · rw [hread] at hg2; cases hg2
        · exact h1 k hk2 g2 hg2
    · by_cases hlt : d < frameDensity f
      · have hstep : bestStep read (b, d) i = (some f, frameDensity f) := by
          simp [bestStep, hread, hlt]
        rw [List.foldl_cons, hstep]
        rcases ih (some f) (frameDensity f) with ⟨heq, hall⟩ |
          ⟨l1, j, l2, g, hsplit, hr, heq, hlt2, h1, h2⟩
        · right
          exact ⟨[], i, rest, f, rfl, hread, heq, hlt, by simp, hall⟩
        · right
          refine ⟨i :: l1, j, l2, g, by rw [hsplit]; rfl, hr, heq,
            lt_trans hlt hlt2, ?_, h2⟩
          intro k hk g2 hg2
          rcases List.mem_cons.mp hk with rfl | hk2
          · rw [hread] at hg2
            injection hg2 with hfg
            subst hfg
            exact Or.inr hlt2
          · rcases h1 k hk2 g2 hg2 with ha | hb
            · exact Or.inr (lt_of_le_of_lt ha hlt2)
            · exact Or.inr hb
      · have hstep : bestStep read (b, d) i = (b, d) := by
          simp [bestStep, hread, hlt]
        rw [List.foldl_cons, hstep]
        rcases ih b d with ⟨heq, hall⟩ | ⟨l1, j, l2, g, hsplit, hr, heq, hlt2, h1, h2⟩
        · left
          refine ⟨heq, ?_⟩
          intro k hk g2 hg2
          rcases List.mem_cons.mp hk with rfl | hk2
          · rw [hread] at hg2
            injection hg2 with hfg
            subst hfg
            exact not_lt.mp hlt
          · exact hall k hk2 g2 hg2
        · right
          refine ⟨i :: l1, j, l2, g, by rw [hsplit]; rfl, hr, heq, hlt2, ?_, h2⟩
          intro k hk g2 hg2
          rcases List.mem_cons.mp hk with rfl | hk2
          · rw [hread] at hg2
            injection hg2 with hfg
            subst hfg
            exact Or.inl (not_lt.mp hlt)
          · exact h1 k hk2 g2 hg2

/-! ## Claim theorems -/

/-- C1 (code bug, evaluation at the failing input): in a run where the
single discovered unit's subprocess exits with code 0 without timing out
but the expected rendered-output location does not exist post-run, the
overall success flag is still `true` — the media-existence check of
`run_manim_multiscene` (rendering.py lines 149/230-232) only gates frame
extraction and never modifies the flag, contradicting both the spec's
"MediaMissing ⇒ overall success forced false" and the function's own
docstring ("True only if all scenes rendered successfully and files were
found"). -/
theorem c1_media_missing_success_unaffected :
    (run_manim_multiscene (.ok [⟨"TestScene", [.name "Scene"]⟩])
      mediaMissingEnv none).success = true ∧
    mediaMissingEnv.mediaDirExists = false :=
  ⟨rfl, rfl⟩

/-- C2: in the refinement loop of `review_and_update_code`, the working
candidate after cycle `i` equals the working candidate before cycle `i`
whenever that cycle's execution report has `success = false`, and the
working candidate changes only in a cycle whose report has
`success = true`. -/
theorem c2_working_candidate_update_law (init : String)
    (outcomes : List CycleOutcome) (i : Nat) (hi : i < outcomes.length) :
    ((outcomes.get ⟨i, hi⟩).execSuccess = false →
      (review_and_update_code init (outcomes.take (i + 1))).workingCode =
        (review_and_update_code init (outcomes.take i)).workingCode) ∧
    ((review_and_update_code init (outcomes.take (i + 1))).workingCode ≠
        (review_and_update_code init (outcomes.take i)).workingCode →
      (outcomes.get ⟨i, hi⟩).execSuccess = true) := by
  have htake : outcomes.take (i + 1) = outcomes.take i ++ [outcomes.get ⟨i, hi⟩] := by
    rw [List.take_succ]
    congr 1
    rw [List.getElem?_eq_getElem hi]
    rfl
  have hstep : (review_and_update_code init (outcomes.take (i + 1))).workingCode =
      if (outcomes.get ⟨i, hi⟩).execSuccess then some (outcomes.get ⟨i, hi⟩).revisedCode
      else (review_and_update_code init (outcomes.take i)).workingCode := by
    rw [htake, review_and_update_code, List.foldl_append]
    rfl
  constructor
  · intro hfail
    rw [hstep, hfail]
    rfl
  · intro hne
    by_contra hnot
    have hfail : (outcomes.get ⟨i, hi⟩).execSuccess = false := by
      cases h : (outcomes.get ⟨i, hi⟩).execSuccess
      · rfl
      · exact absurd h hnot
    rw [hstep, hfail] at hne
    exact hne rfl

/-- C2 witness: a concrete failed cycle leaves the working candidate
unchanged. -/
theorem c2_working_candidate_update_law_witness :
    (review_and_update_code "init"
        (List.take 1 ([⟨"rev1", false⟩] : List CycleOutcome))).workingCode =
      (review_and_update_code "init"
        (List.take 0 ([⟨"rev1", false⟩] : List CycleOutcome))).workingCode :=
  (c2_working_candidate_update_law "init" [⟨"rev1", false⟩] 0 (by decide)).1 rfl

/-- C5: a candidate whose structural scan fails short-circuits the
runner: success is `false`, the frame and successful-unit lists are
empty, the log is the synthesized parse-error message, and zero
subprocesses are spawned. -/
theorem c5_parse_failure_short_circuit (e : String) (env : RenderEnv)
    (sceneTimeout : Option Nat) :
    run_manim_multiscene (.error e) env sceneTimeout =
      { success := false, frames := [],
        logs := parseFailLog ("Syntax error in code: " ++ e),
        successfulScenes := [], spawned := 0 } :=
  rfl

/-- C7: a class declaration's name is in the discovered render-unit list
iff some base reference's terminal identifier ends with the literal
suffix "Scene"; in particular base `Scene` matches, base
`pkg.CustomScene` matches (terminal identifier `CustomScene`), and base
`SceneHelper` does not. -/
theorem c7_scene_suffix_discovery :
    (∀ (defs : List ClassDef) (s : String),
      s ∈ extractLoop defs ↔
        ∃ c ∈ defs, c.name = s ∧ ∃ b ∈ c.bases, pyEndsWith b.refId "Scene" = true) ∧
    pyEndsWith (BaseRef.refId (.name "Scene")) "Scene" = true ∧
    pyEndsWith (BaseRef.refId (.attribute "CustomScene")) "Scene" = true ∧
    pyEndsWith (BaseRef.refId (.name "SceneHelper")) "Scene" = false ∧
    extract_scene_class_names (.ok [⟨"UnitA", [.name "Scene"]⟩,
      ⟨"UnitB", [.attribute "CustomScene"]⟩, ⟨"UnitC", [.name "SceneHelper"]⟩]) =
      .ok ["UnitA", "UnitB"] := by
  refine ⟨?_, rfl, rfl, rfl, rfl⟩
  intro defs s
  rw [mem_extractLoop]
  constructor
  · rintro ⟨c, hc, hcs, hcm⟩
    exact ⟨c, hc, hcs, by simpa [matchesSceneBase, List.any_eq_true] using hcm⟩
  · rintro ⟨c, hc, hcs, hcb⟩
    exact ⟨c, hc, hcs, by simpa [matchesSceneBase, List.any_eq_true] using hcb⟩

/-- C8: the success evaluator returns `100 * s / t`, returns `0` when the
requested count is zero or the scan failed, and in particular yields
200/3 (within 0.01 of 66.67) at (2, 3), 0 at (0, 0), and 100 whenever
all of at least one requested unit succeeded. -/
theorem c8_success_rate_formula :
    (∀ (succ names : List String), names ≠ [] →
      (calculate_scene_success_rate succ (.ok names)).1 =
        100 * (succ.length : ℚ) / (names.length : ℚ)) ∧
    (∀ (succ : List String), (calculate_scene_success_rate succ (.ok [])).1 = 0) ∧
    (∀ (succ : List String) (e : String),
      (calculate_scene_success_rate succ (.error e)).1 = 0) ∧
    (calculate_scene_success_rate ["a", "b"] (.ok ["a", "b", "c"])).1 = 200 / 3 ∧
    |(calculate_scene_success_rate ["a", "b"] (.ok ["a", "b", "c"])).1 - 6667 / 100| <
      1 / 100 ∧
    (∀ (names : List String), names ≠ [] →
      (calculate_scene_success_rate names (.ok names)).1 = 100) := by
  refine ⟨?_, ?_, ?_, ?_, ?_, ?_⟩
  · intro succ names hne
    have hlen : names.length ≠ 0 := by simpa [List.length_eq_zero] using hne
    simp only [calculate_scene_success_rate, hlen, if_false]
    ring
  · intro succ
    rfl
  · intro succ e
    rfl
  · norm_num [calculate_scene_success_rate]
  · norm_num [calculate_scene_success_rate, abs_lt]
  · intro names hne
    have hlen : names.length ≠ 0 := by simpa [List.length_eq_zero] using hne
    have hcast : (names.length : ℚ) ≠ 0 := by exact_mod_cast hlen
    simp only [calculate_scene_success_rate, hlen, if_false]
    rw [div_self hcast, one_mul]

/-- C8 witness: the formula instantiated at a concrete all-successful
run. -/
theorem c8_success_rate_formula_witness :
    (calculate_scene_success_rate ["a"] (.ok ["a"])).1 = 100 :=
  c8_success_rate_formula.2.2.2.2.2 ["a"] (by simp)

/-- C10: a syntactically valid candidate that declares zero render units
yields overall success `true`, empty frame and successful-unit lists, an
empty aggregate log, and zero subprocess invocations — and `main`
therefore accepts it as the working candidate. -/
theorem c10_zero_units_success (env : RenderEnv) (sceneTimeout : Option Nat)
    (code : String) :
    run_manim_multiscene (.ok []) env sceneTimeout =
      { success := true, frames := [], logs := "",
        successfulScenes := [], spawned := 0 } ∧
    initialWorking code (run_manim_multiscene (.ok []) env sceneTimeout).success =
      some code := by
  have h : run_manim_multiscene (.ok []) env sceneTimeout =
      { success := true, frames := [], logs := "",
        successfulScenes := [], spawned := 0 } := by
    unfold run_manim_multiscene
    cases henv : env.mediaDirExists <;>
      simp [extract_scene_class_names, extractLoop, collectFrames, henv]
  exact ⟨h, by rw [h]; rfl⟩

/-- C6: the generator client makes at most 5 upstream calls, and under 5
consecutive throttling signals it sleeps `min(2 * attempt_number, 30)`
seconds after each signal and then raises the fatal "Max retries
exceeded." error instead of attempting a 6th call. -/
theorem c6_throttle_retry_policy :
    (∀ (env : Nat → CallOutcome) (model : String),
      (get_completion_with_retry env model 5).calls ≤ 5) ∧
    (∀ (env : Nat → CallOutcome) (model : String),
      (∀ k, k < 5 → env k = .rateLimited) →
        get_completion_with_retry env model 5 =
          ⟨.fatal "Max retries exceeded.",
            (List.range 5).map (fun k => min (2 * (k + 1)) 30), 5⟩) := by
  constructor
  · have haux : ∀ (env : Nat → CallOutcome) (model : String) (fuel attempt : Nat)
        (sleeps : List Nat) (calls : Nat),
        (retryAux env model attempt fuel sleeps calls).calls ≤ calls + fuel := by
      intro env model fuel
      induction fuel with
      | zero => intro attempt sleeps calls; simp [retryAux]
      | succ n ih =>
        intro attempt sleeps calls
        rw [retryAux]
        cases env attempt with
        | ok c u => simp
        | rateLimited =>
          have hrec := ih (attempt + 1) (sleeps ++ [min (2 * (attempt + 1)) 30]) (calls + 1)
          exact le_trans hrec (by omega)
        | otherError m => simp
    intro env model
    simpa using haux env model 5 0 [] 0
  · intro env model h
    rw [get_completion_with_retry, retryAux, h 0 (by norm_num), retryAux,
      h 1 (by norm_num), retryAux, h 2 (by norm_num), retryAux, h 3 (by norm_num),
      retryAux, h 4 (by norm_num), retryAux]
    rfl

/-- C6 witness: the policy at a concretely always-throttled upstream. -/
theorem c6_throttle_retry_policy_witness :
    get_completion_with_retry (fun _ => .rateLimited) "some-model" 5 =
      ⟨.fatal "Max retries exceeded.",
        (List.range 5).map (fun k => min (2 * (k + 1)) 30), 5⟩ :=
  c6_throttle_retry_policy.2 (fun _ => .rateLimited) "some-model" (fun _ _ => rfl)

/-- C9 counterexample: the claim asserts that every non-throttling call
failure of the generator client is returned as a sentinel failure string
with zeroed usage rather than raised; but the streaming client
(`get_streaming_completion_with_retry`, which has no generic `except`
clause) propagates the exception of its first attempt to the caller. -/
theorem c9_streaming_raises_counterexample :
    get_streaming_completion_with_retry (fun _ => .otherError "upstream failure") 5 =
      (.raised "upstream failure", []) :=
  rfl

/-- C9 (amended): a non-throttling failure is never retried by either
client; the non-streaming client returns the sentinel failure string with
a zeroed usage record, while the streaming client propagates the
exception to the caller. -/
theorem c9_non_throttle_no_retry (envN : Nat → CallOutcome)
    (envS : Nat → StreamAttempt) (model msgN msgS : String)
    (hN : envN 0 = .otherError msgN) (hS : envS 0 = .otherError msgS) :
    get_completion_with_retry envN model 5 =
      ⟨.result sentinelContent (zeroedUsage model), [], 1⟩ ∧
    get_streaming_completion_with_retry envS 5 = (.raised msgS, []) := by
  constructor
  · rw [get_completion_with_retry, retryAux, hN]
  · rw [get_streaming_completion_with_retry, streamRetryAux, hS]

/-- C9 witness: the amended behaviour at concrete failing upstreams. -/
theorem c9_non_throttle_no_retry_witness :
    get_completion_with_retry (fun _ => .otherError "boom") "some-model" 5 =
      ⟨.result sentinelContent (zeroedUsage "some-model"), [], 1⟩ ∧
    get_streaming_completion_with_retry (fun _ => .otherError "boom") 5 =
      (.raised "boom", []) :=
  c9_non_throttle_no_retry (fun _ => .otherError "boom")
    (fun _ => .otherError "boom") "some-model" "boom" "boom" rfl rfl

/-- C3 counterexample: the claim asserts `highest_density` returns no
frame only when every sampled position failed to decode; but on a video
whose single sampled position decodes to an all-black frame (density 0),
the strict `density > best_density` comparison against the initial best
of 0 never fires and the extraction returns `none`. -/
theorem c3_all_black_counterexample :
    extract_frames_from_video vBlack "highest_density" 3 30 = none ∧
    vBlack.read 0 = some ⟨[0]⟩ := by
  constructor
  · norm_num [extract_frames_from_video, linspaceIdx, bestStep, frameDensity, vBlack]
  · rfl

/-- C3 (amended): on an opened, nonempty video, `highest_density` returns
at most one frame; it returns no frame exactly when every sampled
position either fails to decode or decodes to a frame with zero
foreground ratio; and a returned frame is a decoded sample whose
foreground ratio is positive, strictly greater than every earlier decoded
sample's and at least every decoded sample's (first-seen wins ties). -/
theorem c3_highest_density_spec (v : Video) (frame_count max_frames : Nat)
    (hopen : v.opened = true) (htot : v.totalFrames ≠ 0) :
    (∀ fs, extract_frames_from_video v "highest_density" frame_count max_frames =
      some fs → fs.length = 1) ∧
    (extract_frames_from_video v "highest_density" frame_count max_frames = none ↔
      ∀ i ∈ linspaceIdx v.totalFrames (min max_frames v.totalFrames),
        ∀ g, v.read i = some g → frameDensity g = 0) ∧
    (∀ f, extract_frames_from_video v "highest_density" frame_count max_frames =
        some [f] →
      ∃ l1 i l2, linspaceIdx v.totalFrames (min max_frames v.totalFrames) =
          l1 ++ i :: l2 ∧
        v.read i = some f ∧ 0 < frameDensity f ∧
        (∀ j ∈ l1, ∀ g, v.read j = some g → frameDensity g < frameDensity f) ∧
        (∀ j ∈ l1 ++ i :: l2, ∀ g, v.read j = some g →
          frameDensity g ≤ frameDensity f)) := by
  have hext : extract_frames_from_video v "highest_density" frame_count max_frames =
      (match ((linspaceIdx v.totalFrames (min max_frames v.totalFrames)).foldl
          (bestStep v.read) (none, 0)).1 with
        | some f => some [f]
        | none => none) := by
    rw [extract_frames_from_video, hopen]
    simp [htot]
  rcases bestFold_spec v.read (linspaceIdx v.totalFrames (min max_frames v.totalFrames))
      none 0 with ⟨heq, hall⟩ | ⟨l1, i, l2, f, hsplit, hr, heq, hpos, h1, h2⟩
  · rw [heq] at hext
    refine ⟨?_, ?_, ?_⟩
    · intro fs hfs
      rw [hext] at hfs
      cases hfs
    · rw [hext]
      simp only [true_iff]
      intro j hj g hg
      exact le_antisymm (hall j hj g hg) (frameDensity_nonneg g)
    · intro f hf
      rw [hext] at hf
      cases hf
  · rw [heq] at hext
    refine ⟨?_, ?_, ?_⟩
    · intro fs hfs
      rw [hext] at hfs
      injection hfs with hfs2
      rw [← hfs2]
      rfl
    · rw [hext]
      constructor
      · intro hcontra
        exact absurd hcontra (Option.some_ne_none _)
      · intro hzero
        have hmem : i ∈ l1 ++ i :: l2 := List.mem_append_right l1 (List.mem_cons_self i l2)
        have h0 := hzero i (by rw [hsplit]; exact hmem) f hr
        exact absurd h0 (ne_of_gt hpos)
    · intro f2 hf2
      rw [hext] at hf2
      injection hf2 with hfs2
      injection hfs2 with hff _
      subst hff
      refine ⟨l1, i, l2, hsplit, hr, hpos, ?_, ?_⟩
      · intro j hj g hg
        rcases h1 j hj g hg with ha | hb
        · have h0 : frameDensity g = 0 := le_antisymm ha (frameDensity_nonneg g)
          rw [h0]
          exact hpos
        · exact hb
      · intro j hj g hg
        rcases List.mem_append.mp hj with hj1 | hj2
        · rcases h1 j hj1 g hg with ha | hb
          · exact le_trans ha (le_of_lt hpos)
          · exact le_of_lt hb
        · rcases List.mem_cons.mp hj2 with rfl | hj3
          · rw [hr] at hg
            injection hg with hgf
            subst hgf
            exact le_refl _
          · exact h2 j hj3 g hg

/-- C3 witness: the amended characterization at a concrete two-frame
video (black frame then bright frame). -/
theorem c3_highest_density_spec_witness :
    extract_frames_from_video vTwo "highest_density" 3 30 = none ↔
      ∀ i ∈ linspaceIdx vTwo.totalFrames (min 30 vTwo.totalFrames),
        ∀ g, vTwo.read i = some g → frameDensity g = 0 :=
  (c3_highest_density_spec vTwo 3 30 rfl (by norm_num [vTwo])).2.1

/-- C4 counterexample: the claim asserts `fixed_count` returns exactly
`min(K, L)` frames for every media length `L ≥ 1` and request `K ≥ 1`;
but on a one-frame video whose sampled position fails to decode, it
returns `none` (no frames) instead of `min(1, 1) = 1` frame. -/
theorem c4_decode_failure_counterexample :
    extract_frames_from_video vNoDecode "fixed_count" 1 30 = none ∧
    min 1 vNoDecode.totalFrames = 1 :=
  ⟨rfl, rfl⟩

/-- C4 (amended): on an opened video of length `L ≥ 1` with request
`K ≥ 1`, provided every sampled position decodes, `fixed_count` returns
exactly `min(K, L)` frames, one per sampled position in order, and the
sampled positions are evenly spaced and strictly increasing. -/
theorem c4_fixed_count_spec (v : Video) (K max_frames : Nat)
    (hopen : v.opened = true) (hK : 1 ≤ K) (hL : 1 ≤ v.totalFrames)
    (hdec : ∀ i ∈ linspaceIdx v.totalFrames (min K v.totalFrames),
      (v.read i).isSome) :
    extract_frames_from_video v "fixed_count" K max_frames =
      some ((linspaceIdx v.totalFrames (min K v.totalFrames)).filterMap v.read) ∧
    ((linspaceIdx v.totalFrames (min K v.totalFrames)).filterMap v.read).length =
      min K v.totalFrames ∧
    (linspaceIdx v.totalFrames (min K v.totalFrames)).Pairwise (· < ·) := by
  have htot : v.totalFrames ≠ 0 := by omega
  have hn1 : 1 ≤ min K v.totalFrames := le_min hK hL
  have hlen : ((linspaceIdx v.totalFrames (min K v.totalFrames)).filterMap v.read).length
      = min K v.totalFrames := by
    rw [filterMap_length_of_isSome v.read _ hdec,
      linspaceIdx_length v.totalFrames _ hn1]
  refine ⟨?_, hlen, linspaceIdx_pairwise v.totalFrames _ (min_le_right K v.totalFrames)⟩
  rw [extract_frames_from_video, hopen]
  simp only [Bool.not_true, Bool.false_eq_true, if_false, htot]
  have hne : ((linspaceIdx v.totalFrames (min K v.totalFrames)).filterMap v.read).isEmpty
      = false := by
    rw [List.isEmpty_eq_false_iff_exists_mem]
    have : 0 < ((linspaceIdx v.totalFrames (min K v.totalFrames)).filterMap v.read).length := by
      omega
    exact List.exists_mem_of_length_pos this
  simp [hne]

/-- C4 witness: the amended statement at a concrete two-frame video with
`K = 2`. -/
theorem c4_fixed_count_spec_witness :
    extract_frames_from_video vTwo "fixed_count" 2 30 =
      some ((linspaceIdx vTwo.totalFrames (min 2 vTwo.totalFrames)).filterMap vTwo.read) :=
  (c4_fixed_count_spec vTwo 2 30 rfl (by norm_num) (by norm_num [vTwo])
    (by decide)).1

end ManimGen
